import Mathlib

/-!
Verification of the Bubble Prompt prompt-construction pipeline.

The definitions below are a shallow embedding of the repository source:
`src/utils/mockAI.js` (task classifier), `src/utils/promptEngine.js`
(CO-STAR prompt builder and presets), `src/components/Wizard.jsx`
(clarify-stage answer collection) and `src/App.jsx` (session state and
template handling).  JavaScript strings are modelled as Lean `String`,
JavaScript objects used as string-keyed maps as association lists in
insertion order, and the handful of JS string primitives the code uses
(`includes`, `toLowerCase`, `trim`, `split`, `join`, `startsWith`,
`substring`, `toUpperCase`, the `||` fallback) are modelled explicitly.
-/

/-! ### JavaScript string primitives -/

/-- Model of the JS `||` operator specialised to strings: the empty string
is the only falsy string, so `a || b` is `b` when `a` is empty. -/
def jsOr (a b : String) : String := if a = "" then b else a

/-- Whitespace characters removed by JS `String.prototype.trim`
(restricted to the ASCII whitespace relevant to this code base). -/
def isJsSpace (c : Char) : Bool := c == ' ' || c == '\t' || c == '\n' || c == '\r'

/-- Model of JS `String.prototype.trim`. -/
def jsTrim (s : String) : String :=
  String.mk (((s.data.dropWhile isJsSpace).reverse.dropWhile isJsSpace).reverse)

/-- Model of JS `String.prototype.toLowerCase` (identity on CJK text). -/
def jsToLower (s : String) : String := String.mk (s.data.map Char.toLower)

/-- Model of JS `String.prototype.toUpperCase`. -/
def jsToUpper (s : String) : String := String.mk (s.data.map Char.toUpper)

/-- Test whether the first list of characters is a leading segment of the second. -/
def listHasPref : List Char → List Char → Bool
  | [], _ => true
  | _ :: _, [] => false
  | p :: ps, c :: cs => p == c && listHasPref ps cs

/-- Test whether the first list of characters occurs contiguously in the second. -/
def listContainsSeq (pat : List Char) : List Char → Bool
  | [] => listHasPref pat []
  | c :: cs => listHasPref pat (c :: cs) || listContainsSeq pat cs

/-- Model of JS `String.prototype.includes`. -/
def jsIncludes (s pat : String) : Bool := listContainsSeq pat.data s.data

/-- Model of JS `String.prototype.startsWith`. -/
def jsStartsWith (s pat : String) : Bool := listHasPref pat.data s.data

/-- Model of JS `String.prototype.substring(n)`. -/
def jsSubstringFrom (s : String) (n : Nat) : String := String.mk (s.data.drop n)

/-- Character-level splitting used to model the JS string split method on
a single-space separator: every separator occurrence splits, empty
segments are kept, and splitting the empty string gives one empty
segment. -/
def splitChars (sep : Char) : List Char → List (List Char)
  | [] => [[]]
  | c :: cs =>
    let rest := splitChars sep cs
    if c == sep then [] :: rest
    else
      match rest with
      | h :: t => (c :: h) :: t
      | [] => [[c]]

/-- Model of the JS split on a single space applied to the context string. -/
def splitOnSpace (s : String) : List String := (splitChars ' ' s.data).map String.mk

/-- Model of JS `Array.prototype.join(sep)`. -/
def joinSep (sep : String) : List String → String
  | [] => ""
  | [x] => x
  | x :: y :: xs => x ++ sep ++ joinSep sep (y :: xs)

/-! ### JavaScript object-as-map primitives

A JS object used as a string-keyed dictionary is modelled as an
association list in insertion order: assigning to an existing key updates
it in place, assigning to a fresh key appends it, and `Object.entries`
enumerates the list in that order. -/

/-- Model of the JS assignment `m[k] = v` on an object used as a map. -/
def objSet (m : List (String × String)) (k v : String) : List (String × String) :=
  if m.any (fun p => p.1 == k) then
    m.map (fun p => if p.1 == k then (k, v) else p)
  else m ++ [(k, v)]

/-- Model of the JS read `m[k]` on an object used as a map. -/
def objGet (m : List (String × String)) (k : String) : Option String :=
  (m.find? (fun p => p.1 == k)).map (fun p => p.2)

/-! ### `src/utils/mockAI.js` — the rule-based classifier -/

/-- A follow-up question as produced by the classifier
(`{id, text, subText}` in `mockAI.js`). -/
structure Question where
  id : String
  text : String
  subText : String
deriving DecidableEq, Repr

/-- The analysis result of `analyzeTask` (`{type, recommendedQuestions}`). -/
structure Analysis where
  type : String
  recommendedQuestions : List Question
deriving DecidableEq, Repr

/-- The coding-rule keyword test in `analyzeTask` (`mockAI.js` line 27). -/
def codingMatch (lowerInput : String) : Bool :=
  jsIncludes lowerInput "代码" || jsIncludes lowerInput "code" ||
  jsIncludes lowerInput "脚本" || jsIncludes lowerInput "python"

/-- The marketing-rule keyword test in `analyzeTask` (`mockAI.js` line 41). -/
def marketingMatch (lowerInput : String) : Bool :=
  jsIncludes lowerInput "文案" || jsIncludes lowerInput "copy" ||
  jsIncludes lowerInput "宣传" || jsIncludes lowerInput "小红书"

/-- Model of `analyzeTask` from `src/utils/mockAI.js`: keyword heuristics evaluated
in declaration order (Coding, then MarketingCopy, then the General
fallback). -/
def analyzeTask (input : String) : Analysis :=
  let lowerInput := jsToLower input
  if codingMatch lowerInput then
    { type := "Coding"
      recommendedQuestions :=
        [ { id := "q_lang", text := "什么语言？", subText := "例如: Python, JavaScript, C++" }
        , { id := "q_func", text := "具体功能？", subText := "例如: 数据清洗, 网页爬虫, 排序算法" }
        , { id := "q_lib", text := "涉及的库或框架？", subText := "例如: React, Pandas, Tailwind" } ] }
  else if marketingMatch lowerInput then
    { type := "MarketingCopy"
      recommendedQuestions :=
        [ { id := "q_platform", text := "发布平台？", subText := "例如: 小红书, 朋友圈, 抖音" }
        , { id := "q_audience", text := "目标受众？", subText := "例如: 大学生, 宝妈, 职场新人" }
        , { id := "q_goal", text := "核心目的？", subText := "例如: 增加点击, 促进下单, 品牌曝光" } ] }
  else
    { type := "General"
      recommendedQuestions :=
        [ { id := "q_detail", text := "具体细节？", subText := "补充更多关于任务的背景信息" }
        , { id := "q_audience", text := "写给谁看？", subText := "目标读者或受众是谁" }
        , { id := "q_format", text := "输出格式？", subText := "例如: 列表, 表格, 纯文本" } ] }

/-- C7: classifier totality — every input yields a non-empty question list
and one of the three declared categories. -/
theorem analyzeTask_total (input : String) :
    (analyzeTask input).recommendedQuestions ≠ [] ∧
    ((analyzeTask input).type = "Coding" ∨ (analyzeTask input).type = "MarketingCopy" ∨
      (analyzeTask input).type = "General") := by
  unfold analyzeTask
  dsimp only
  split
  · exact ⟨by simp, Or.inl rfl⟩
  · split
    · exact ⟨by simp, Or.inr (Or.inl rfl)⟩
    · exact ⟨by simp, Or.inr (Or.inr rfl)⟩

/-- C3: first-match priority — any input matching both the coding and the
marketing keyword sets is classified by the first-declared rule, Coding,
regardless of match count or keyword position. -/
theorem analyzeTask_first_rule_wins (input : String)
    (hc : codingMatch (jsToLower input) = true)
    (_hm : marketingMatch (jsToLower input) = true) :
    (analyzeTask input).type = "Coding" := by
  unfold analyzeTask
  simp only [hc, if_true]

/-- Witness for C3 at the spec example input `"帮我写代码文案"`, which
contains the coding keyword `代码` and the marketing keyword `文案`. -/
theorem analyzeTask_first_rule_wins_witness :
    codingMatch (jsToLower "帮我写代码文案") = true ∧
    marketingMatch (jsToLower "帮我写代码文案") = true ∧
    (analyzeTask "帮我写代码文案").type = "Coding" :=
  ⟨by decide, by decide,
    analyzeTask_first_rule_wins "帮我写代码文案" (by decide) (by decide)⟩

/-! ### `src/utils/promptEngine.js` — the CO-STAR builder -/

/-- The builder state of `CoStarBuilder` (`promptEngine.js`); field names
and initial values follow the constructor. -/
structure CoStarBuilder where
  context : String := ""
  objective : String := ""
  style : List String := []
  tone : String := ""
  audience : String := ""
  responseFormat : String := ""
  constraints : List String := []
  userInputs : List (String × String) := []
deriving DecidableEq, Repr

/-- A freshly constructed `new CoStarBuilder()`. -/
def CoStarBuilder.new : CoStarBuilder := {}

/-- Model of `setObjective` (chainable mutator modelled as a state transformer). -/
def CoStarBuilder.setObjective (b : CoStarBuilder) (task : String) : CoStarBuilder :=
  { b with objective := task }

/-- Model of `setContext` with its optional second argument: builds the role sentence,
falling back to `通用` when `industry` is falsy. -/
def CoStarBuilder.setContext (b : CoStarBuilder) (industry : String)
    (customContext : String := "") : CoStarBuilder :=
  { b with context := "你是一位 " ++ jsOr industry "通用" ++ " 领域的专家。 " ++ customContext }

/-- Model of `addStyle`. -/
def CoStarBuilder.addStyle (b : CoStarBuilder) (styleTag : String) : CoStarBuilder :=
  { b with style := b.style ++ [styleTag] }

/-- Model of `setAudience`. -/
def CoStarBuilder.setAudience (b : CoStarBuilder) (audience : String) : CoStarBuilder :=
  { b with audience := audience }

/-- Model of `addConstraint`: append-only accumulation of constraint strings. -/
def CoStarBuilder.addConstraint (b : CoStarBuilder) (constraint : String) : CoStarBuilder :=
  { b with constraints := b.constraints ++ [constraint] }

/-- Model of `setResponseFormat`: an overwrite, the last call wins. -/
def CoStarBuilder.setResponseFormat (b : CoStarBuilder) (format : String) : CoStarBuilder :=
  { b with responseFormat := format }

/-- Model of `setUserInputs`. -/
def CoStarBuilder.setUserInputs (b : CoStarBuilder)
    (inputs : List (String × String)) : CoStarBuilder :=
  { b with userInputs := inputs }

/-- One rendered constraint line (`c => `- ${c}`` in `build()`). -/
def dashLine (c : String) : String := "- " ++ c

/-- The variable part of the constraints block in the build method: the
accumulated constraints rendered as dash lines joined by newlines, with
the fixed no-special-limit line as the falsy fallback. -/
def constraintsBlock (b : CoStarBuilder) : String :=
  jsOr (joinSep "\n" (b.constraints.map dashLine)) "- 无特殊限制。"

/-- The three universal fixed constraint lines appended unconditionally
after the accumulated constraints in `build()`. -/
def fixedConstraintLines (b : CoStarBuilder) : String :=
  "- 严禁捏造事实 (No Hallucination)。\n- 确保输出内容可直接用于生产环境。\n- 保持 "
    ++ jsOr (b.style.headD "") "专业" ++ " 的语调。"

/-- The whole constraints section of the rendered prompt: the accumulated
block followed by the three universal fixed lines. -/
def constraintsSection (b : CoStarBuilder) : String :=
  constraintsBlock b ++ "\n" ++ fixedConstraintLines b

/-- The label transformation applied to each `userInputs` key in `build()`:
strip a leading `q_` and upper-case the remainder. -/
def inputLabel (key : String) : String :=
  if jsStartsWith key "q_" then jsToUpper (jsSubstringFrom key 2) else key

/-- Model of the `build` method: the fixed multi-section template from
`promptEngine.js`, rendered and finally trimmed. -/
def CoStarBuilder.build (b : CoStarBuilder) : String :=
  let styleStr := joinSep "、" b.style
  let inputsStr := joinSep "\n"
    (b.userInputs.map (fun kv => "- **" ++ inputLabel kv.1 ++ "**: " ++ kv.2))
  jsTrim
    ("\n# 🚀 角色设定 (SYSTEM ROLE)\n" ++ b.context
      ++ "\n\n# 🎯 核心任务 (CO-STAR)\n**背景 (Context)**: 服务于 "
      ++ jsOr ((splitOnSpace b.context).getD 1 "") "目标"
      ++ " 行业。\n**目标 (Objective)**: " ++ b.objective
      ++ "\n**风格 (Style)**: " ++ jsOr styleStr "专业、清晰"
      ++ "\n**受众 (Audience)**: " ++ jsOr b.audience "普通用户"
      ++ "\n**格式 (Response)**: " ++ jsOr b.responseFormat "结构化 Markdown"
      ++ "\n\n# 📝 用户输入信息\n" ++ inputsStr
      ++ "\n\n# ⛓️ 思考链路 (Chain of Thought)\n1. 分析用户的核心目标和受众群体。\n2. 识别关键限制条件和风格要求。\n3. 构思内容结构，确保逻辑清晰、重点突出。\n4. 调整语气以匹配用户要求的风格："
      ++ styleStr
      ++ "。\n5. 按照指定格式输出最终结果。\n\n# ⛔ 限制条件与质量控制\n"
      ++ constraintsSection b
      ++ "\n\n# 👇 请在下方生成回复\n")

/-! The preset literals of `PromptPresets` in `promptEngine.js`. -/

/-- Marketing preset, first constraint literal. -/
def marketingConstraint1 : String := "使用具有说服力的心理学技巧 (如 FOMO, 社会认同)。"

/-- Marketing preset, second constraint literal. -/
def marketingConstraint2 : String := "强调产品/服务带来的利益，而非仅仅列举功能。"

/-- Marketing preset, response-format literal. -/
def marketingFormat : String := "文案格式 (标题 + 正文 + 行动号召)"

/-- Coding preset, first constraint literal. -/
def codingConstraint1 : String := "遵循 Clean Code 代码规范。"

/-- Coding preset, second constraint literal. -/
def codingConstraint2 : String := "为复杂的逻辑逻辑添加中文注释。"

/-- Coding preset, response-format literal. -/
def codingFormat : String := "代码块 + Markdown 解释"

/-- Academic preset, first constraint literal. -/
def academicConstraint1 : String := "使用严谨的学术语言。"

/-- Academic preset, second constraint literal. -/
def academicConstraint2 : String := "如有引用，请注明来源。"

/-- Academic preset, response-format literal. -/
def academicFormat : String := "学术论文结构 (摘要, 引言, 主体, 结论)"

namespace PromptPresets

/-- Model of the marketing preset: two constraints plus a response format. -/
def marketing (builder : CoStarBuilder) : CoStarBuilder :=
  ((builder.addConstraint marketingConstraint1).addConstraint
    marketingConstraint2).setResponseFormat marketingFormat

/-- Model of the coding preset. -/
def coding (builder : CoStarBuilder) : CoStarBuilder :=
  ((builder.addConstraint codingConstraint1).addConstraint
    codingConstraint2).setResponseFormat codingFormat

/-- Model of the academic preset. -/
def academic (builder : CoStarBuilder) : CoStarBuilder :=
  ((builder.addConstraint academicConstraint1).addConstraint
    academicConstraint2).setResponseFormat academicFormat

end PromptPresets

/-! ### Helper lemmas about the string primitives -/

/-- The character data of a string distributes over append. -/
theorem strData_append (a b : String) : (a ++ b).data = a.data ++ b.data := by
  cases a
  cases b
  rfl

/-- A string with a non-empty left component of an append is non-empty. -/
theorem str_append_ne_empty_left (a b : String) (h : a ≠ "") : a ++ b ≠ "" := by
  intro hc
  apply h
  have hd : a.data ++ b.data = ([] : List Char) := by
    have h0 := congrArg String.data hc
    rw [strData_append] at h0
    exact h0
  have ha : a.data = [] := (List.append_eq_nil.mp hd).1
  exact String.ext (by simp [ha])

/-- A dash-rendered constraint line is never empty. -/
theorem dashLine_ne_empty (c : String) : dashLine c ≠ "" :=
  str_append_ne_empty_left "- " c (by decide)

/-- The joined constraint lines of a non-empty constraint list are a
non-empty string, so the no-special-limit fallback line is not taken. -/
theorem joinSep_dashLines_ne_empty (l : List String) (h : l ≠ []) :
    joinSep "\n" (l.map dashLine) ≠ "" := by
  match l with
  | [] => exact absurd rfl h
  | [x] =>
    simp only [List.map, joinSep]
    exact dashLine_ne_empty x
  | x :: y :: xs =>
    simp only [List.map, joinSep]
    exact str_append_ne_empty_left _ _
      (str_append_ne_empty_left _ _ (dashLine_ne_empty x))

/-- C5: additive preset constraints — each category preset appends exactly
its two constraint literals after the previously accumulated constraints,
the rendered constraints block lists every accumulated constraint in order
(duplicates kept), and the full constraints section of `build()` appends
exactly the three universal fixed lines after the block, shown concretely
on a builder carrying a duplicated constraint. -/
theorem presets_additive_constraints :
    (∀ b : CoStarBuilder,
      (PromptPresets.marketing b).constraints
          = b.constraints ++ [marketingConstraint1, marketingConstraint2] ∧
      constraintsBlock (PromptPresets.marketing b)
          = joinSep "\n"
              ((b.constraints ++ [marketingConstraint1, marketingConstraint2]).map dashLine)) ∧
    (∀ b : CoStarBuilder,
      (PromptPresets.coding b).constraints
          = b.constraints ++ [codingConstraint1, codingConstraint2] ∧
      constraintsBlock (PromptPresets.coding b)
          = joinSep "\n"
              ((b.constraints ++ [codingConstraint1, codingConstraint2]).map dashLine)) ∧
    (∀ b : CoStarBuilder,
      (PromptPresets.academic b).constraints
          = b.constraints ++ [academicConstraint1, academicConstraint2] ∧
      constraintsBlock (PromptPresets.academic b)
          = joinSep "\n"
              ((b.constraints ++ [academicConstraint1, academicConstraint2]).map dashLine)) ∧
    constraintsSection
        (PromptPresets.marketing
          { CoStarBuilder.new with constraints := [marketingConstraint1] })
      = dashLine marketingConstraint1 ++ "\n" ++ dashLine marketingConstraint1 ++ "\n"
          ++ dashLine marketingConstraint2 ++ "\n"
          ++ "- 严禁捏造事实 (No Hallucination)。\n- 确保输出内容可直接用于生产环境。\n- 保持 专业 的语调。" := by
  refine ⟨?_, ?_, ?_, ?_⟩
  · intro b
    have hcs : (PromptPresets.marketing b).constraints
        = b.constraints ++ [marketingConstraint1, marketingConstraint2] := by
      simp [PromptPresets.marketing, CoStarBuilder.addConstraint,
        CoStarBuilder.setResponseFormat]
    refine ⟨hcs, ?_⟩
    unfold constraintsBlock
    rw [hcs]
    unfold jsOr
    rw [if_neg (joinSep_dashLines_ne_empty _ (by simp))]
  · intro b
    have hcs : (PromptPresets.coding b).constraints
        = b.constraints ++ [codingConstraint1, codingConstraint2] := by
      simp [PromptPresets.coding, CoStarBuilder.addConstraint,
        CoStarBuilder.setResponseFormat]
    refine ⟨hcs, ?_⟩
    unfold constraintsBlock
    rw [hcs]
    unfold jsOr
    rw [if_neg (joinSep_dashLines_ne_empty _ (by simp))]
  · intro b
    have hcs : (PromptPresets.academic b).constraints
        = b.constraints ++ [academicConstraint1, academicConstraint2] := by
      simp [PromptPresets.academic, CoStarBuilder.addConstraint,
        CoStarBuilder.setResponseFormat]
    refine ⟨hcs, ?_⟩
    unfold constraintsBlock
    rw [hcs]
    unfold jsOr
    rw [if_neg (joinSep_dashLines_ne_empty _ (by simp))]
  · decide

/-! ### `src/components/Wizard.jsx` — clarify-stage answer collection -/

/-- One clarify-stage interaction: the text sitting in the answer box when
the user presses a navigation button, and whether that button was 跳过
(skip) or 下一步/完成 (submit). -/
structure WizardStep where
  typed : String
  skip : Bool
deriving DecidableEq, Repr

/-- The recording test of `handleNext` in `Wizard.jsx`:
`!skip && currentAnswer.trim()` — an answer is recorded only when not
skipped and non-blank after trimming. -/
def recorded (st : WizardStep) : Bool :=
  !st.skip && jsTrim st.typed != ""

/-- The answer-map update of one `handleNext` call: when the recording
test passes, the untrimmed typed text is stored under the current
question id; otherwise the map is unchanged. -/
def wizardNext (answers : List (String × String)) (q : Question)
    (st : WizardStep) : List (String × String) :=
  if recorded st then objSet answers q.id st.typed else answers

/-- Running the wizard over its question list: questions are consumed in
order, one interaction per question, starting from the empty answer map,
and the accumulated map is what `onComplete` receives. -/
def runWizard (questions : List Question) (steps : List WizardStep) :
    List (String × String) :=
  (questions.zip steps).foldl (fun acc p => wizardNext acc p.1 p.2) []

/-- Assigning a fresh key to a JS object appends the entry. -/
theorem objSet_append_of_not_mem (m : List (String × String)) (k v : String)
    (h : k ∉ m.map Prod.fst) : objSet m k v = m ++ [(k, v)] := by
  unfold objSet
  have hany : m.any (fun p => p.1 == k) = false := by
    rw [List.any_eq_false]
    intro p hp
    simp only [beq_iff_eq]
    intro hpk
    exact h (List.mem_map.mpr ⟨p, hp, hpk⟩)
  rw [hany]
  simp

/-- The question ids paired by `zip` form a sublist of all question ids. -/
theorem zip_map_fst_id_sublist (qs : List Question) (ss : List WizardStep) :
    ((qs.zip ss).map (fun p => p.1.id)).Sublist (qs.map Question.id) := by
  induction qs generalizing ss with
  | nil => simp
  | cons q qt ih =>
    cases ss with
    | nil => simp
    | cons s st =>
      simpa using (ih st).cons₂ q.id

/-- Folding `wizardNext` over question/interaction pairs with pairwise
distinct ids appends exactly the recorded pairs, in order. -/
theorem wizard_foldl_eq (ps : List (Question × WizardStep)) :
    ∀ acc : List (String × String),
    (ps.map (fun p => p.1.id)).Nodup →
    (∀ k ∈ acc.map Prod.fst, k ∉ ps.map (fun p => p.1.id)) →
    ps.foldl (fun a p => wizardNext a p.1 p.2) acc
      = acc ++ (ps.filter (fun p => recorded p.2)).map (fun p => (p.1.id, p.2.typed)) := by
  induction ps with
  | nil => intro acc _ _; simp
  | cons hd tl ih =>
    intro acc hnd hdis
    obtain ⟨q, st⟩ := hd
    rw [List.map_cons, List.nodup_cons] at hnd
    simp only [List.foldl_cons]
    cases hrec : recorded st with
    | false =>
      have hstep : wizardNext acc q st = acc := by
        unfold wizardNext
        rw [hrec]
        simp
      rw [hstep, ih acc hnd.2 ?hdis']
      · simp [List.filter_cons, hrec]
      case hdis' =>
        intro k hk
        have := hdis k hk
        simp only [List.map_cons, List.mem_cons] at this
        intro hmem
        exact this (Or.inr hmem)
    | true =>
      have hknotin : q.id ∉ acc.map Prod.fst := by
        intro hk
        exact (hdis q.id hk) (by simp)
      have hstep : wizardNext acc q st = acc ++ [(q.id, st.typed)] := by
        unfold wizardNext
        rw [hrec]
        simp only [if_true]
        exact objSet_append_of_not_mem acc q.id st.typed hknotin
      rw [hstep, ih (acc ++ [(q.id, st.typed)]) hnd.2 ?hdis']
      · simp [List.filter_cons, hrec, List.append_assoc]
      case hdis' =>
        intro k hk
        simp only [List.map_append, List.mem_append, List.map_cons, List.map_nil,
          List.mem_singleton] at hk
        rcases hk with hk | hk
        · have := hdis k hk
          simp only [List.map_cons, List.mem_cons] at this
          intro hmem
          exact this (Or.inr hmem)
        · rw [hk]
          exact hnd.1

/-- C6: skip semantics — with pairwise distinct question ids, the answer
map `onComplete` receives is exactly the list of (id, typed text) pairs of
the interactions that were submitted with non-blank text: skipped and
whitespace-only answers insert no key, and no stored value is blank. -/
theorem wizard_skip_semantics (qs : List Question) (ss : List WizardStep)
    (h : (qs.map Question.id).Nodup) :
    runWizard qs ss
      = ((qs.zip ss).filter (fun p => recorded p.2)).map (fun p => (p.1.id, p.2.typed)) ∧
    ∀ kv ∈ runWizard qs ss, jsTrim kv.2 ≠ "" ∧ kv.2 ≠ "" := by
  have hnd : ((qs.zip ss).map (fun p => p.1.id)).Nodup :=
    h.sublist (zip_map_fst_id_sublist qs ss)
  have heq : runWizard qs ss
      = ((qs.zip ss).filter (fun p => recorded p.2)).map (fun p => (p.1.id, p.2.typed)) := by
    unfold runWizard
    rw [wizard_foldl_eq (qs.zip ss) [] hnd (by simp)]
    simp
  refine ⟨heq, ?_⟩
  intro kv hkv
  rw [heq] at hkv
  obtain ⟨p, hp, hpkv⟩ := List.mem_map.mp hkv
  have hprec : recorded p.2 = true := (List.mem_filter.mp hp).2
  unfold recorded at hprec
  have htrim : jsTrim p.2.typed ≠ "" := by
    have hne : (jsTrim p.2.typed != "") = true := by
      rcases Bool.and_eq_true_iff.mp hprec with ⟨_, hne⟩
      exact hne
    exact bne_iff_ne.mp hne
  have hv : kv.2 = p.2.typed := by rw [← hpkv]
  rw [hv]
  refine ⟨htrim, ?_⟩
  intro hempty
  apply htrim
  rw [hempty]
  rfl

/-- Witness for C6: the General question list with a whitespace-only
answer, a submitted answer and a skip records exactly the one non-blank
submission. -/
theorem wizard_skip_semantics_witness :
    ((analyzeTask "你好").recommendedQuestions.map Question.id).Nodup ∧
    runWizard (analyzeTask "你好").recommendedQuestions
        [⟨"   ", false⟩, ⟨"不限", false⟩, ⟨"随意", true⟩]
      = [("q_audience", "不限")] :=
  ⟨by decide,
    (wizard_skip_semantics (analyzeTask "你好").recommendedQuestions
      [⟨"   ", false⟩, ⟨"不限", false⟩, ⟨"随意", true⟩] (by decide)).1.trans (by decide)⟩

/-- Reading back a key just assigned to a JS object yields the assigned
value. -/
theorem objGet_objSet (m : List (String × String)) (k v : String) :
    objGet (objSet m k v) k = some v := by
  by_cases hany : m.any (fun p => p.1 == k) = true
  · unfold objSet
    rw [if_pos hany]
    induction m with
    | nil => simp at hany
    | cons hd tl ih =>
      by_cases hhd : (hd.1 == k) = true
      · unfold objGet
        rw [List.map_cons]
        simp only [hhd, if_true]
        rw [List.find?_cons_of_pos _ (by simp)]
        rfl
      · have hhd' : (hd.1 == k) = false := by
          exact Bool.eq_false_iff.mpr hhd
        have htl : tl.any (fun p => p.1 == k) = true := by
          simp only [List.any_cons] at hany
          rcases Bool.or_eq_true_iff.mp hany with h | h
          · exact absurd h hhd
          · exact h
        unfold objGet at ih ⊢
        rw [List.map_cons]
        simp only [hhd', if_false, Bool.false_eq_true]
        rw [List.find?_cons_of_neg _ (by simp [hhd'])]
        exact ih htl
  · unfold objSet
    rw [if_neg hany]
    unfold objGet
    have hnone : m.find? (fun p => p.1 == k) = none := by
      rw [List.find?_eq_none]
      intro p hp hbeq
      exact hany (List.any_eq_true.mpr ⟨p, hp, hbeq⟩)
    rw [List.find?_append, hnone]
    rw [List.find?_cons_of_pos _ (by simp)]
    rfl

/-- C10: a recorded answer is stored verbatim — when the interaction is a
submission whose text is non-blank after trimming, `handleNext` stores the
exact typed string (whitespace included) under the question id; trimming
is only the recording test, never applied to the stored value. -/
theorem wizard_records_exact_answer (answers : List (String × String))
    (q : Question) (st : WizardStep)
    (hskip : st.skip = false) (hne : jsTrim st.typed ≠ "") :
    wizardNext answers q st = objSet answers q.id st.typed ∧
    objGet (wizardNext answers q st) q.id = some st.typed := by
  have hrec : recorded st = true := by
    unfold recorded
    rw [hskip]
    simp [bne_iff_ne.mpr hne]
  have hstep : wizardNext answers q st = objSet answers q.id st.typed := by
    unfold wizardNext
    rw [hrec]
    simp
  exact ⟨hstep, by rw [hstep]; exact objGet_objSet answers q.id st.typed⟩

/-- Witness for C10: typing `"  机器人  "` (untrimmed, non-blank) on the
first General question stores the exact untrimmed string. -/
theorem wizard_records_exact_answer_witness :
    (⟨"  机器人  ", false⟩ : WizardStep).skip = false ∧
    jsTrim ("  机器人  " : String) ≠ "" ∧
    objGet (wizardNext [] { id := "q_detail", text := "具体细节？", subText := "补充更多关于任务的背景信息" }
        ⟨"  机器人  ", false⟩) "q_detail" = some "  机器人  " :=
  ⟨rfl, by decide,
    (wizard_records_exact_answer []
      { id := "q_detail", text := "具体细节？", subText := "补充更多关于任务的背景信息" }
      ⟨"  机器人  ", false⟩ rfl (by decide)).2⟩

/-! ### `src/App.jsx` — session state and template handling -/

/-- The wizard stage held in the `step` state of `App.jsx`
(the four stage strings input, wizard, tagging and result). -/
inductive Step where
  | input
  | wizard
  | tagging
  | result
deriving DecidableEq, Repr

/-- A persisted template record as assembled in `handleSaveTemplate`
(`{id, name, date, taskInput, taskType, answers, selectedStyles,
selectedIndustries, generatedPrompt, tags}`); `id` is the `Date.now()`
millisecond reading and `date` the ISO timestamp string. -/
structure Template where
  id : Nat
  name : String
  date : String
  taskInput : String
  taskType : String
  answers : List (String × String)
  selectedStyles : List String
  selectedIndustries : List String
  generatedPrompt : String
  tags : List String
deriving DecidableEq, Repr

/-- The application state of `App.jsx` relevant to the pipeline (visual
state — bubbles, weather theme — is cosmetic and omitted). -/
structure AppState where
  step : Step
  taskInput : String
  taskType : String
  questions : List Question
  answers : List (String × String)
  generatedPrompt : String
  selectedStyles : List String
  selectedIndustries : List String
  templates : List Template
  isSidebarOpen : Bool
deriving DecidableEq, Repr

/-- The initial `useState` values of `App.jsx`: input stage, General task
type, pre-seeded style tag `直接`, no industries, no templates. -/
def initialState : AppState where
  step := .input
  taskInput := ""
  taskType := "General"
  questions := []
  answers := []
  generatedPrompt := ""
  selectedStyles := ["直接"]
  selectedIndustries := []
  templates := []
  isSidebarOpen := false

/-- Model of `handleStart`: classify the submitted input, seed task type and
questions, move to the wizard stage. -/
def handleStart (input : String) (st : AppState) : AppState :=
  let analysis := analyzeTask input
  { st with
    taskInput := input
    taskType := analysis.type
    questions := analysis.recommendedQuestions
    step := .wizard }

/-- Model of `handleWizardComplete`: store the collected answers, move to tagging. -/
def handleWizardComplete (collectedAnswers : List (String × String))
    (st : AppState) : AppState :=
  { st with answers := collectedAnswers, step := .tagging }

/-- The builder configuration performed inside `handleGenerate`:
objective from the task input, context from the first selected industry
(falling back to `通用`), the collected answers, each selected style, the
category preset for Coding or MarketingCopy, and the `Markdown 结构化格式`
fallback format when no preset set one. -/
def generateBuilder (st : AppState) : CoStarBuilder :=
  let b := CoStarBuilder.new
  let b := b.setObjective st.taskInput
  let b := b.setContext (jsOr (st.selectedIndustries.headD "") "通用")
  let b := b.setUserInputs st.answers
  let b := st.selectedStyles.foldl (fun b s => b.addStyle s) b
  let b := if st.taskType = "Coding" then PromptPresets.coding b else b
  let b := if st.taskType = "MarketingCopy" then PromptPresets.marketing b else b
  if b.responseFormat = "" then b.setResponseFormat "Markdown 结构化格式" else b

/-- Model of `handleGenerate`: build the prompt from the collected session state
and move to the result stage. -/
def handleGenerate (st : AppState) : AppState :=
  { st with generatedPrompt := (generateBuilder st).build, step := .result }

/-- The template record assembled by `handleSaveTemplate` from the current
session state, a user-chosen name, the `Date.now()` reading and the ISO
date string. -/
def newTemplate (name : String) (now : Nat) (date : String)
    (st : AppState) : Template where
  id := now
  name := name
  date := date
  taskInput := st.taskInput
  taskType := st.taskType
  answers := st.answers
  selectedStyles := st.selectedStyles
  selectedIndustries := st.selectedIndustries
  generatedPrompt := st.generatedPrompt
  tags := st.selectedStyles ++ st.selectedIndustries

/-- Model of `handleSaveTemplate`: the name dialog yields `name` (`none` models a
cancelled dialog); a falsy name aborts, otherwise the new template is
prepended to the collection and the sidebar opened. -/
def handleSaveTemplate (name : Option String) (now : Nat) (date : String)
    (st : AppState) : AppState :=
  match name with
  | none => st
  | some n =>
    if n = "" then st
    else
      { st with
        templates := newTemplate n now date st :: st.templates
        isSidebarOpen := true }

/-- Model of `handleDeleteTemplate`: keep every template whose id differs. -/
def handleDeleteTemplate (id : Nat) (st : AppState) : AppState :=
  { st with templates := st.templates.filter (fun t => t.id != id) }

/-- Model of `handleLoadTemplate`: restore the five snapshot fields and jump to the
result stage; `taskType` and `questions` are left untouched. -/
def handleLoadTemplate (tpl : Template) (st : AppState) : AppState :=
  { st with
    taskInput := tpl.taskInput
    answers := tpl.answers
    selectedStyles := tpl.selectedStyles
    selectedIndustries := tpl.selectedIndustries
    generatedPrompt := tpl.generatedPrompt
    step := .result
    isSidebarOpen := false }

/-- The restart action wired to the result view
(in `App.jsx` the callback passed as onRestart only sets the step state
back to the input stage): it only changes the stage. -/
def onRestart (st : AppState) : AppState :=
  { st with step := .input }

/-- The template-loading effect of `App.jsx`
(`const saved = localStorage.getItem(...); if (saved) setTemplates(JSON.parse(saved))`).
`saved` is the stored string if any; `parse` abstracts the host
`JSON.parse`, returning `none` when the persisted data is malformed, in
which case `JSON.parse` throws and the exception leaves the effect —
modelled as `Except.error`. -/
def loadTemplatesEffect (parse : String → Option (List Template))
    (saved : Option String) : Except String (List Template) :=
  match saved with
  | none => Except.ok []
  | some s =>
    match parse s with
    | some tpls => Except.ok tpls
    | none => Except.error "SyntaxError"

/-- C8: save/load round trip — saving the session under a non-falsy name
prepends a snapshot template, and loading that template back into any
later state restores TaskInput, AnswerMap, StyleTags, IndustryTags and
RenderedPrompt to their save-time values, while the task type and the
question list of the receiving state are left untouched (the classifier is
not re-run) and the loaded prompt is used as-is in the result stage. -/
theorem save_load_roundtrip (st later : AppState) (n : String)
    (now : Nat) (date : String) (hn : n ≠ "") :
    (handleSaveTemplate (some n) now date st).templates
        = newTemplate n now date st :: st.templates ∧
    (handleLoadTemplate (newTemplate n now date st) later).taskInput = st.taskInput ∧
    (handleLoadTemplate (newTemplate n now date st) later).answers = st.answers ∧
    (handleLoadTemplate (newTemplate n now date st) later).selectedStyles
        = st.selectedStyles ∧
    (handleLoadTemplate (newTemplate n now date st) later).selectedIndustries
        = st.selectedIndustries ∧
    (handleLoadTemplate (newTemplate n now date st) later).generatedPrompt
        = st.generatedPrompt ∧
    (handleLoadTemplate (newTemplate n now date st) later).taskType = later.taskType ∧
    (handleLoadTemplate (newTemplate n now date st) later).questions = later.questions ∧
    (handleLoadTemplate (newTemplate n now date st) later).step = Step.result := by
  simp [handleSaveTemplate, handleLoadTemplate, newTemplate, if_neg hn]

/-- Witness for C8 at a concrete saved session. -/
theorem save_load_roundtrip_witness :
    ("周报模板" : String) ≠ "" ∧
    (handleLoadTemplate
        (newTemplate "周报模板" 42 "2026-02-04"
          { initialState with
            taskInput := "帮我写周报", answers := [("q_goal", "总结本周")]
            generatedPrompt := "P", selectedIndustries := ["互联网"] })
        initialState).taskInput = "帮我写周报" ∧
    (handleLoadTemplate
        (newTemplate "周报模板" 42 "2026-02-04"
          { initialState with
            taskInput := "帮我写周报", answers := [("q_goal", "总结本周")]
            generatedPrompt := "P", selectedIndustries := ["互联网"] })
        initialState).questions = initialState.questions :=
  ⟨by decide,
    (save_load_roundtrip
      { initialState with
        taskInput := "帮我写周报", answers := [("q_goal", "总结本周")]
        generatedPrompt := "P", selectedIndustries := ["互联网"] }
      initialState "周报模板" 42 "2026-02-04" (by decide)).2.1,
    (save_load_roundtrip
      { initialState with
        taskInput := "帮我写周报", answers := [("q_goal", "总结本周")]
        generatedPrompt := "P", selectedIndustries := ["互联网"] }
      initialState "周报模板" 42 "2026-02-04" (by decide)).2.2.2.2.2.2.2.1⟩

/-- A concrete mid-session result state used to evaluate the restart
action: non-empty session fields, non-default tag selections, two saved
templates. -/
def restartDemoState : AppState :=
  { initialState with
    step := Step.result
    taskInput := "写周报"
    answers := [("q_detail", "本周上线")]
    generatedPrompt := "P"
    selectedStyles := ["幽默风趣"]
    selectedIndustries := ["金融"]
    templates :=
      [ newTemplate "甲" 1 "2026-02-04" initialState
      , newTemplate "乙" 2 "2026-02-04" initialState ] }

/-- C1 (divergence witness): the restart action from the result view only
returns the stage to Intake; TaskInput, AnswerMap and RenderedPrompt keep
their values and the style/industry selections keep their non-default
values — nothing is cleared — while the template collection is indeed left
at count 2. -/
theorem restart_keeps_session_fields :
    (onRestart restartDemoState).step = Step.input ∧
    (onRestart restartDemoState).taskInput = "写周报" ∧
    (onRestart restartDemoState).answers = [("q_detail", "本周上线")] ∧
    (onRestart restartDemoState).generatedPrompt = "P" ∧
    (onRestart restartDemoState).selectedStyles = ["幽默风趣"] ∧
    (onRestart restartDemoState).selectedStyles ≠ initialState.selectedStyles ∧
    (onRestart restartDemoState).selectedIndustries = ["金融"] ∧
    (onRestart restartDemoState).templates.length = 2 := by
  refine ⟨rfl, rfl, rfl, rfl, rfl, ?_, rfl, rfl⟩
  decide

/-- C2 (counterexample): with persisted data present that the parser
rejects, the load effect produces an error — not the empty template
collection the claim requires — because the code wraps `JSON.parse` in no
try/catch. -/
theorem load_templates_failure_not_silent :
    loadTemplatesEffect (fun _ => none) (some "not json")
        = Except.error "SyntaxError" ∧
    loadTemplatesEffect (fun _ => none) (some "not json")
        ≠ Except.ok ([] : List Template) := by
  exact ⟨rfl, by simp [loadTemplatesEffect]⟩

/-- C2 (amended): the template collection is empty when nothing was
persisted, is replaced by the parsed list when parsing succeeds, and a
parse failure on present data raises the parse error out of the load
effect instead of yielding an empty collection. -/
theorem load_templates_parse_failure_propagates
    (parse : String → Option (List Template)) (saved : Option String) :
    (saved = none → loadTemplatesEffect parse saved = Except.ok []) ∧
    (∀ s, saved = some s → parse s = none →
      loadTemplatesEffect parse saved = Except.error "SyntaxError") ∧
    (∀ s tpls, saved = some s → parse s = some tpls →
      loadTemplatesEffect parse saved = Except.ok tpls) := by
  refine ⟨?_, ?_, ?_⟩
  · intro h
    rw [h]
    rfl
  · intro s hs hp
    simp [loadTemplatesEffect, hs, hp]
  · intro s tpls hs hp
    simp [loadTemplatesEffect, hs, hp]

/-- Witness for the amended C2 at a concrete failing parse. -/
theorem load_templates_parse_failure_propagates_witness :
    loadTemplatesEffect (fun _ => none) (some "broken json")
        = Except.error "SyntaxError" :=
  (load_templates_parse_failure_propagates (fun _ => none)
    (some "broken json")).2.1 "broken json" rfl rfl

/-! ### C9 — template id uniqueness under save/delete traces -/

/-- One user action on the template collection: a save (with the name
dialog result and the `Date.now()` reading at that moment) or a delete by
id. -/
inductive TplOp where
  | save (name : String) (now : Nat) (date : String)
  | delete (id : Nat)

/-- Apply one template operation to the application state through the
corresponding `App.jsx` handler. -/
def applyTplOp (st : AppState) : TplOp → AppState
  | .save n now date => handleSaveTemplate (some n) now date st
  | .delete i => handleDeleteTemplate i st

/-- Run a sequence of template operations. -/
def runTplOps (st : AppState) (ops : List TplOp) : AppState :=
  ops.foldl applyTplOp st

/-- The clock reading of a save operation. -/
def saveNow : TplOp → Option Nat
  | .save _ now _ => some now
  | .delete _ => none

/-- Invariant transfer: if the current template ids are pairwise distinct
and disjoint from the clock readings of the upcoming saves (themselves
pairwise distinct), the ids stay pairwise distinct through the trace. -/
theorem runTplOps_ids_nodup (ops : List TplOp) :
    ∀ st : AppState,
    (st.templates.map Template.id).Nodup →
    (ops.filterMap saveNow).Nodup →
    (∀ i ∈ st.templates.map Template.id, i ∉ ops.filterMap saveNow) →
    ((runTplOps st ops).templates.map Template.id).Nodup := by
  induction ops with
  | nil => intro st hst _ _; exact hst
  | cons op rest ih =>
    intro st hst hops hdis
    cases op with
    | save n now date =>
      have hfm : (TplOp.save n now date :: rest).filterMap saveNow
          = now :: rest.filterMap saveNow := by
        simp [List.filterMap_cons, saveNow]
      rw [hfm] at hops hdis
      rw [List.nodup_cons] at hops
      show ((runTplOps (handleSaveTemplate (some n) now date st) rest).templates.map
        Template.id).Nodup
      by_cases hn : n = ""
      · rw [hn]
        simp only [handleSaveTemplate, if_pos rfl]
        exact ih st hst hops.2 (fun i hi => fun hmem =>
          hdis i hi (List.mem_cons_of_mem now hmem))
      · simp only [handleSaveTemplate, if_neg hn]
        apply ih
        · rw [List.map_cons, List.nodup_cons]
          refine ⟨?_, hst⟩
          intro hmem
          exact hdis now hmem (List.mem_cons_self now _)
        · exact hops.2
        · intro i hi
          rw [List.map_cons, List.mem_cons] at hi
          rcases hi with hi | hi
          · rw [hi]
            exact hops.1
          · exact fun hmem => hdis i hi (List.mem_cons_of_mem now hmem)
    | delete j =>
      have hfm : (TplOp.delete j :: rest).filterMap saveNow
          = rest.filterMap saveNow := by
        simp [List.filterMap_cons, saveNow]
      rw [hfm] at hops hdis
      show ((runTplOps (handleDeleteTemplate j st) rest).templates.map Template.id).Nodup
      apply ih
      · exact hst.sublist ((List.filter_sublist _).map Template.id)
      · exact hops
      · intro i hi
        apply hdis i
        exact ((List.filter_sublist _).map Template.id).mem hi

/-- With pairwise distinct ids, filtering out one present id removes
exactly one element. -/
theorem filter_ne_id_length (l : List Template) (t : Template)
    (hnd : (l.map Template.id).Nodup) (hmem : t ∈ l) :
    (l.filter (fun x => x.id != t.id)).length = l.length - 1 := by
  induction l with
  | nil => cases hmem
  | cons hd tl ih =>
    rw [List.map_cons, List.nodup_cons] at hnd
    rcases List.mem_cons.mp hmem with heq | hmem'
    · have hhd : (hd.id != t.id) = false := by
        rw [heq]
        simp
      have htl : tl.filter (fun x => x.id != t.id) = tl := by
        rw [List.filter_eq_self]
        intro x hx
        have hne : x.id ≠ t.id := by
          intro hxe
          apply hnd.1
          rw [← heq, ← hxe]
          exact List.mem_map.mpr ⟨x, hx, rfl⟩
        simp [hne]
      rw [List.filter_cons, hhd]
      simp only [Bool.false_eq_true, if_false, htl]
      simp
    · have htne : t.id ∈ tl.map Template.id := List.mem_map.mpr ⟨t, hmem', rfl⟩
      have hhd : (hd.id != t.id) = true := by
        have : hd.id ≠ t.id := by
          intro hxe
          apply hnd.1
          rw [hxe]
          exact htne
        simp [this]
      have htlpos : 0 < tl.length := List.length_pos.mpr (by
        intro hnil
        rw [hnil] at hmem'
        cases hmem')
      rw [List.filter_cons, hhd]
      simp only [if_true, List.length_cons]
      rw [ih hnd.2 hmem']
      omega

/-- C9 (counterexample): two saves during the same `Date.now()`
millisecond produce templates with equal ids, so the ids are not pairwise
distinct and deleting by that id removes both templates, not exactly
one. -/
theorem template_ids_collision :
    ((runTplOps initialState
        [TplOp.save "甲" 5 "2026-02-04", TplOp.save "乙" 5 "2026-02-04"]).templates.map
      Template.id) = [5, 5] ∧
    ¬ ((runTplOps initialState
        [TplOp.save "甲" 5 "2026-02-04", TplOp.save "乙" 5 "2026-02-04"]).templates.map
      Template.id).Nodup ∧
    (handleDeleteTemplate 5
        (runTplOps initialState
          [TplOp.save "甲" 5 "2026-02-04", TplOp.save "乙" 5 "2026-02-04"])).templates.length
      = 0 := by
  refine ⟨by decide, by decide, by decide⟩

/-- C9 (amended): template ids are pairwise distinct after any sequence of
saves and deletes from the initial state, provided the `Date.now()`
readings of the saves are pairwise distinct; and whenever the ids are
pairwise distinct, deleting a present template id removes exactly one
template. -/
theorem template_ids_unique_of_distinct_clock :
    (∀ ops : List TplOp, (ops.filterMap saveNow).Nodup →
      ((runTplOps initialState ops).templates.map Template.id).Nodup) ∧
    (∀ (st : AppState) (t : Template),
      (st.templates.map Template.id).Nodup → t ∈ st.templates →
      (handleDeleteTemplate t.id st).templates.length = st.templates.length - 1) := by
  constructor
  · intro ops hops
    exact runTplOps_ids_nodup ops initialState (by simp [initialState]) hops
      (by simp [initialState])
  · intro st t hnd hmem
    unfold handleDeleteTemplate
    exact filter_ne_id_length st.templates t hnd hmem

/-- Witness for the amended C9: two saves at distinct clock readings give
distinct ids, and deleting the younger id removes exactly one of two. -/
theorem template_ids_unique_witness :
    ((runTplOps initialState
        [TplOp.save "甲" 3 "2026-02-04", TplOp.save "乙" 7 "2026-02-04"]).templates.map
      Template.id).Nodup ∧
    (handleDeleteTemplate
        (newTemplate "甲" 3 "2026-02-04" initialState).id
        { initialState with
          templates :=
            [ newTemplate "甲" 3 "2026-02-04" initialState
            , newTemplate "乙" 7 "2026-02-04" initialState ] }).templates.length
      = 1 := by
  constructor
  · exact template_ids_unique_of_distinct_clock.1
      [TplOp.save "甲" 3 "2026-02-04", TplOp.save "乙" 7 "2026-02-04"] (by decide)
  · have h := template_ids_unique_of_distinct_clock.2
      { initialState with
        templates :=
          [ newTemplate "甲" 3 "2026-02-04" initialState
          , newTemplate "乙" 7 "2026-02-04" initialState ] }
      (newTemplate "甲" 3 "2026-02-04" initialState) (by decide) (by decide)
    simpa using h

/-- C4: the 小红书 marketing scenario — the input is classified as
MarketingCopy with platform/audience/goal follow-ups; answering only the
platform question with 小红书 and skipping the rest, then generating with
the pre-seeded style `直接`, yields a prompt containing both marketing
constraint literals, whose response-format line carries the marketing
preset literal format string, and which contains neither the builder
generic default format phrase nor the app-level fallback phrase. -/
theorem marketing_scenario :
    (handleStart "帮我写一段小红书文案" initialState).taskType = "MarketingCopy" ∧
    ((handleStart "帮我写一段小红书文案" initialState).questions.map Question.id)
      = ["q_platform", "q_audience", "q_goal"] ∧
    runWizard (handleStart "帮我写一段小红书文案" initialState).questions
        [⟨"小红书", false⟩, ⟨"", true⟩, ⟨"", true⟩]
      = [("q_platform", "小红书")] ∧
    (generateBuilder (handleWizardComplete [("q_platform", "小红书")]
        (handleStart "帮我写一段小红书文案" initialState))).responseFormat
      = marketingFormat ∧
    jsIncludes (handleGenerate (handleWizardComplete [("q_platform", "小红书")]
        (handleStart "帮我写一段小红书文案" initialState))).generatedPrompt
      marketingConstraint1 = true ∧
    jsIncludes (handleGenerate (handleWizardComplete [("q_platform", "小红书")]
        (handleStart "帮我写一段小红书文案" initialState))).generatedPrompt
      marketingConstraint2 = true ∧
    jsIncludes (handleGenerate (handleWizardComplete [("q_platform", "小红书")]
        (handleStart "帮我写一段小红书文案" initialState))).generatedPrompt
      ("**格式 (Response)**: " ++ marketingFormat ++ "\n") = true ∧
    jsIncludes (handleGenerate (handleWizardComplete [("q_platform", "小红书")]
        (handleStart "帮我写一段小红书文案" initialState))).generatedPrompt
      "结构化 Markdown" = false ∧
    jsIncludes (handleGenerate (handleWizardComplete [("q_platform", "小红书")]
        (handleStart "帮我写一段小红书文案" initialState))).generatedPrompt
      "Markdown 结构化格式" = false := by
  set_option maxRecDepth 10000 in decide
